import Mathlib

/-!
Shallow embedding of `src/dom/media/platforms/SharedDecoderManager.cpp`
(`mozilla::SharedDecoderManager`, `mozilla::SharedDecoderProxy` and the
`SharedDecoderCallback` event router).

Modelling conventions:

* Proxies and their consumer-supplied sinks (`MediaDataDecoderCallback*`)
  are identified by a `Nat` id; a proxy's `mCallback` is the sink with the
  same id.
* The external decoder (`mDecoder`), the platform decoder module factory
  (`mPDM`) and the task queue are external collaborators: only their
  presence (non-null pointer) is part of the manager state, and the return
  values of their operations (`Drain`, `Flush`, `Input`, `Init`,
  `CreateDecoder`) are passed to each modelled operation as explicit
  parameters.
* Every operation returns, beside the successor state, the observable
  trace: requests issued to the shared decoder, deliveries to proxy
  sinks, the internal consumption of a drain-complete event, and the
  recording of a new active proxy.
* The blocking wait in `SetIdle` (`while (mWaitForInternalDrain) mon.Wait()`)
  is modelled by running the event router's `DrainComplete` delivery once,
  inline, when the drain request succeeded: the wait terminates exactly
  when that delivery has cleared the flag.  In states where
  `mActiveCallback` is null while a proxy is active the real code would
  block forever; such states are unreachable because `Select` assigns both
  fields together.
* The unused constructor field `mDecoderReleasedResources` is omitted.
-/

namespace SharedDecoder

/-- TrackInfo::TrackType (the values relevant to the decoder contract). -/
inductive TrackType
  | video
  | audio
  | text
  deriving DecidableEq, Repr

/-- MediaDataDecoder::DecoderFailureReason. -/
inductive DecoderFailureReason
  | initError
  | canceled
  deriving DecidableEq, Repr

/-- nsresult, collapsed to success / failure as the code only tests
NS_SUCCEEDED. -/
inductive Nsresult
  | ok
  | errFailure
  deriving DecidableEq, Repr

/-- NS_SUCCEEDED macro. -/
def NS_SUCCEEDED : Nsresult → Bool
  | .ok => true
  | .errFailure => false

/-- Events a MediaDataDecoderCallback (a proxy's sink) can receive. -/
inductive SinkEvent
  | output
  | error
  | inputExhausted
  | drainComplete
  | releaseMediaResources
  deriving DecidableEq, Repr

/-- Requests reaching the shared decoder instance. -/
inductive DecoderReq
  | initReq
  | input
  | flush
  | drain
  | shutdown
  deriving DecidableEq, Repr

/-- Observable steps: a request sent to the shared decoder, an event
delivered to the sink of the proxy with the given id, the internal
consumption of a drain-complete event during hand-off, the recording of a
new active proxy by `Select`, and a request to the factory for a new
decoder instance. -/
inductive TraceEntry
  | req : DecoderReq → TraceEntry
  | sink : Nat → SinkEvent → TraceEntry
  | internalDrainConsumed : TraceEntry
  | activate : Nat → TraceEntry
  | factoryCreate : TraceEntry
  deriving DecidableEq, Repr

/-- The SharedDecoderManager state.  `hasDecoder`, `hasPDM`, `hasTaskQueue`
record whether `mDecoder`, `mPDM`, `mTaskQueue` are non-null;
`activeProxy` is `mActiveProxy`, `activeCallback` is `mActiveCallback`
(the id of the proxy whose sink it is), `mInit` and `waitForInternalDrain`
are the homonymous booleans. -/
structure MState where
  hasDecoder : Bool
  hasPDM : Bool
  hasTaskQueue : Bool
  activeProxy : Option Nat
  activeCallback : Option Nat
  mInit : Bool
  waitForInternalDrain : Bool
  deriving DecidableEq, Repr

/-- The state built by the SharedDecoderManager constructor. -/
def initialState : MState :=
  { hasDecoder := false
    hasPDM := false
    hasTaskQueue := true
    activeProxy := none
    activeCallback := none
    mInit := false
    waitForInternalDrain := false }

/-- SharedDecoderCallback::Output / Error / InputExhausted /
ReleaseMediaResources: forward to `mActiveCallback` when it is non-null,
otherwise do nothing.  No state change. -/
def routerEvent (s : MState) (e : SinkEvent) : List TraceEntry :=
  match s.activeCallback with
  | some p => [.sink p e]
  | none => []

/-- SharedDecoderManager::DrainComplete: when `mWaitForInternalDrain` is
set, clear it and wake the waiting hand-off (the event is consumed
internally); otherwise forward the drain completion to
`mActiveCallback`.  The code dereferences `mActiveCallback` on the forward
path; its only caller, the router, has already checked it is non-null. -/
def managerDrainComplete (s : MState) : MState × List TraceEntry :=
  if s.waitForInternalDrain then
    ({ s with waitForInternalDrain := false }, [.internalDrainConsumed])
  else
    (s, match s.activeCallback with
        | some p => [.sink p .drainComplete]
        | none => [])

/-- SharedDecoderCallback::DrainComplete: call the manager's DrainComplete
only when `mActiveCallback` is non-null. -/
def routerDrainComplete (s : MState) : MState × List TraceEntry :=
  match s.activeCallback with
  | some _ => managerDrainComplete s
  | none => (s, [])

/-- SharedDecoderProxy::Drain.  When the proxy is active the call is
forwarded to the shared decoder (`drainRv` is the decoder's return value);
otherwise the proxy synchronously reports drain-complete to its own sink
and returns NS_OK without touching the decoder. -/
def proxyDrain (p : Nat) (drainRv : Nsresult) (s : MState) :
    MState × List TraceEntry × Nsresult :=
  if s.activeProxy = some p then
    (s, [.req .drain], drainRv)
  else
    (s, [.sink p .drainComplete], .ok)

/-- SharedDecoderProxy::Flush.  Forwarded to the shared decoder when
active, otherwise a no-op returning NS_OK. -/
def proxyFlush (p : Nat) (flushRv : Nsresult) (s : MState) :
    MState × List TraceEntry × Nsresult :=
  if s.activeProxy = some p then
    (s, [.req .flush], flushRv)
  else
    (s, [], .ok)

/-- SharedDecoderManager::SetIdle.  When `aProxy` is non-null and is the
active proxy: set `mWaitForInternalDrain`, call Drain on the active proxy
(which forwards to the decoder), and if the drain request succeeded wait
until the router's drain-complete delivery clears the flag (modelled by
running the router once); then call Flush on the active proxy and clear
`mActiveProxy`.  `mActiveCallback` is left untouched. -/
def setIdle (aProxy : Option Nat) (drainRv flushRv : Nsresult) (s : MState) :
    MState × List TraceEntry :=
  match aProxy with
  | none => (s, [])
  | some p =>
    if s.activeProxy = some p then
      let s1 : MState := { s with waitForInternalDrain := true }
      let d := proxyDrain p drainRv s1
      let w := if NS_SUCCEEDED drainRv then routerDrainComplete d.1 else (d.1, [])
      let f := proxyFlush p flushRv w.1
      ({ f.1 with activeProxy := none },
        d.2.1 ++ w.2 ++ f.2.1)
    else
      (s, [])

/-- SharedDecoderManager::Select.  No-op when `aProxy` is already active;
otherwise hand off the previous active proxy via SetIdle, then record
`aProxy` as active and rebind `mActiveCallback` to its sink. -/
def select (b : Nat) (drainRv flushRv : Nsresult) (s : MState) :
    MState × List TraceEntry :=
  if s.activeProxy = some b then
    (s, [])
  else
    let h := setIdle s.activeProxy drainRv flushRv s
    ({ h.1 with activeProxy := some b, activeCallback := some b },
      h.2 ++ [.activate b])

/-- Result of an InitPromise: resolved with a track type or rejected with
a failure reason. -/
inductive InitResult
  | resolved : TrackType → InitResult
  | rejected : DecoderFailureReason → InitResult
  deriving DecidableEq, Repr

/-- SharedDecoderManager::InitDecoder together with the completion of the
asynchronous request it may start.  `outcome` is how the decoder's own
Init promise settles.  When `!mInit && mDecoder`: one real init request is
issued; on success `mInit` becomes true and the promise resolves with the
decoder's reported track type, on failure the promise rejects with the
reason and `mInit` is unchanged.  Otherwise an immediately-resolved
promise carrying TrackInfo::kVideoTrack is returned and the decoder is not
touched. -/
def initDecoder (outcome : InitResult) (s : MState) :
    MState × List TraceEntry × InitResult :=
  if !s.mInit && s.hasDecoder then
    match outcome with
    | .resolved t => ({ s with mInit := true }, [.req .initReq], .resolved t)
    | .rejected r => (s, [.req .initReq], .rejected r)
  else
    (s, [], .resolved .video)

/-- SharedDecoderManager::Recreate.  Flush then shut down the current
decoder, then ask `mPDM` for a new instance (`createOk` is whether the
factory succeeds).  On success reset `mInit` and return true; on failure
return false leaving `mInit` at its prior value and the manager without a
decoder. -/
def recreate (createOk : Bool) (s : MState) :
    MState × List TraceEntry × Bool :=
  let t : List TraceEntry := [.req .flush, .req .shutdown, .factoryCreate]
  if createOk then
    ({ s with hasDecoder := true, mInit := false }, t, true)
  else
    ({ s with hasDecoder := false }, t, false)

/-- SharedDecoderManager::CreateVideoDecoder.  Creates the shared decoder
on first use (`createOk` is whether `aPDM->CreateDecoder` succeeds; on
failure `mPDM` is cleared and no proxy is returned), then returns a new
proxy (of id `newProxyId`) without selecting it. -/
def createVideoDecoder (createOk : Bool) (newProxyId : Nat) (s : MState) :
    MState × Option Nat :=
  if !s.hasDecoder then
    if createOk then
      ({ s with hasDecoder := true, hasPDM := true }, some newProxyId)
    else
      ({ s with hasPDM := false }, none)
  else
    (s, some newProxyId)

/-- SharedDecoderManager::Shutdown: shut down and release the decoder if
present, release `mPDM`, shut down and release the task queue, disconnect
any outstanding init request. -/
def managerShutdown (s : MState) : MState × List TraceEntry :=
  let d : MState × List TraceEntry :=
    if s.hasDecoder then
      ({ s with hasDecoder := false }, [.req .shutdown])
    else
      (s, [])
  ({ d.1 with hasPDM := false, hasTaskQueue := false }, d.2)

/-- SharedDecoderProxy::Shutdown: SetIdle on self, then NS_OK,
unconditionally.  Also run by the proxy destructor. -/
def proxyShutdown (p : Nat) (drainRv flushRv : Nsresult) (s : MState) :
    MState × List TraceEntry × Nsresult :=
  let h := setIdle (some p) drainRv flushRv s
  (h.1, h.2, .ok)

/-- SharedDecoderProxy::Init: select self if not active, then delegate to
the manager's InitDecoder. -/
def proxyInit (p : Nat) (drainRv flushRv : Nsresult) (outcome : InitResult)
    (s : MState) : MState × List TraceEntry × InitResult :=
  let sel :=
    if s.activeProxy = some p then (s, ([] : List TraceEntry))
    else select p drainRv flushRv s
  let i := initDecoder outcome sel.1
  (i.1, sel.2 ++ i.2.1, i.2.2)

/-- SharedDecoderProxy::Input: select self if not active, then forward the
sample to the shared decoder (`inputRv` is the decoder's return value). -/
def proxyInput (p : Nat) (drainRv flushRv inputRv : Nsresult) (s : MState) :
    MState × List TraceEntry × Nsresult :=
  let sel :=
    if s.activeProxy = some p then (s, ([] : List TraceEntry))
    else select p drainRv flushRv s
  (sel.1, sel.2 ++ [.req .input], inputRv)

/-- The manager and proxy operations, with the external decoder's and
factory's responses as arguments, used to quantify over "every
operation". -/
inductive MOp
  | selOp (b : Nat) (drainRv flushRv : Nsresult)
  | setIdleOp (p : Option Nat) (drainRv flushRv : Nsresult)
  | initDecOp (outcome : InitResult)
  | drainCompleteOp
  | routerEventOp (e : SinkEvent)
  | shutdownOp
  | createVideoOp (createOk : Bool) (newProxyId : Nat)
  | pDrainOp (p : Nat) (drainRv : Nsresult)
  | pFlushOp (p : Nat) (flushRv : Nsresult)
  | pShutdownOp (p : Nat) (drainRv flushRv : Nsresult)
  | pInitOp (p : Nat) (drainRv flushRv : Nsresult) (outcome : InitResult)
  | pInputOp (p : Nat) (drainRv flushRv inputRv : Nsresult)

/-- The state transition performed by each operation. -/
def applyOp : MOp → MState → MState
  | .selOp b d f, s => (select b d f s).1
  | .setIdleOp p d f, s => (setIdle p d f s).1
  | .initDecOp o, s => (initDecoder o s).1
  | .drainCompleteOp, s => (routerDrainComplete s).1
  | .routerEventOp _, s => s
  | .shutdownOp, s => (managerShutdown s).1
  | .createVideoOp c n, s => (createVideoDecoder c n s).1
  | .pDrainOp p r, s => (proxyDrain p r s).1
  | .pFlushOp p r, s => (proxyFlush p r s).1
  | .pShutdownOp p d f, s => (proxyShutdown p d f s).1
  | .pInitOp p d f o, s => (proxyInit p d f o s).1
  | .pInputOp p d f i, s => (proxyInput p d f i s).1

/-- Run a sequence of InitDecoder calls, each made after the previous
result is known; the n-th call's underlying decoder init settles as the
n-th list element (relevant only when a real request is issued).  Returns
the final state, the concatenated trace, and the list of results. -/
def runInits : List InitResult → MState → MState × List TraceEntry × List InitResult
  | [], s => (s, [], [])
  | o :: os, s =>
    let i := initDecoder o s
    let r := runInits os i.1
    (r.1, i.2.1 ++ r.2.1, i.2.2 :: r.2.2)

end SharedDecoder

namespace SharedDecoder

/-! ### Helper lemmas -/

lemma proxyDrain_fst (p : Nat) (rv : Nsresult) (s : MState) :
    (proxyDrain p rv s).1 = s := by
  unfold proxyDrain; split <;> rfl

lemma proxyFlush_fst (p : Nat) (rv : Nsresult) (s : MState) :
    (proxyFlush p rv s).1 = s := by
  unfold proxyFlush; split <;> rfl

lemma managerDrainComplete_mInit (s : MState) :
    ((managerDrainComplete s).1).mInit = s.mInit := by
  unfold managerDrainComplete; split <;> rfl

lemma managerDrainComplete_activeProxy (s : MState) :
    ((managerDrainComplete s).1).activeProxy = s.activeProxy := by
  unfold managerDrainComplete; split <;> rfl

lemma managerDrainComplete_activeCallback (s : MState) :
    ((managerDrainComplete s).1).activeCallback = s.activeCallback := by
  unfold managerDrainComplete; split <;> rfl

lemma routerDrainComplete_mInit (s : MState) :
    ((routerDrainComplete s).1).mInit = s.mInit := by
  unfold routerDrainComplete
  cases h : s.activeCallback <;> simp [managerDrainComplete_mInit]

lemma routerDrainComplete_activeProxy (s : MState) :
    ((routerDrainComplete s).1).activeProxy = s.activeProxy := by
  unfold routerDrainComplete
  cases h : s.activeCallback <;> simp [managerDrainComplete_activeProxy]

lemma routerDrainComplete_activeCallback (s : MState) :
    ((routerDrainComplete s).1).activeCallback = s.activeCallback := by
  unfold routerDrainComplete
  cases h : s.activeCallback <;> simp [managerDrainComplete_activeCallback, h]

lemma setIdle_not_active (p : Nat) (d f : Nsresult) (s : MState)
    (h : ¬ s.activeProxy = some p) :
    setIdle (some p) d f s = (s, []) := by
  simp [setIdle, h]

lemma setIdle_none (d f : Nsresult) (s : MState) :
    setIdle none d f s = (s, []) := rfl

lemma setIdle_fst_activeProxy (p : Option Nat) (d f : Nsresult) (s : MState) :
    ((setIdle p d f s).1).activeProxy = none ∨ (setIdle p d f s).1 = s := by
  cases p with
  | none => right; rfl
  | some q =>
    by_cases hq : s.activeProxy = some q
    · left; simp [setIdle, hq, proxyDrain_fst, proxyFlush_fst]
    · right; simp [setIdle, hq]

lemma setIdle_fst_mInit (p : Option Nat) (d f : Nsresult) (s : MState) :
    ((setIdle p d f s).1).mInit = s.mInit := by
  cases p with
  | none => rfl
  | some q =>
    by_cases hq : s.activeProxy = some q
    · simp only [setIdle, hq, if_pos]
      split <;> simp [proxyDrain_fst, proxyFlush_fst, routerDrainComplete_mInit]
    · simp [setIdle, hq]

lemma setIdle_fst_activeCallback (p : Option Nat) (d f : Nsresult) (s : MState) :
    ((setIdle p d f s).1).activeCallback = s.activeCallback := by
  cases p with
  | none => rfl
  | some q =>
    by_cases hq : s.activeProxy = some q
    · simp only [setIdle, hq, if_pos]
      split <;> simp [proxyDrain_fst, proxyFlush_fst, routerDrainComplete_activeCallback]
    · simp [setIdle, hq]

lemma setIdle_active_clears (p : Nat) (d f : Nsresult) (s : MState)
    (h : s.activeProxy = some p) :
    ((setIdle (some p) d f s).1).activeProxy = none := by
  simp [setIdle, h, proxyDrain_fst, proxyFlush_fst]

lemma select_fst_mInit (b : Nat) (d f : Nsresult) (s : MState) :
    ((select b d f s).1).mInit = s.mInit := by
  unfold select
  split
  · rfl
  · simp [setIdle_fst_mInit]

lemma select_fst_activeProxy (b : Nat) (d f : Nsresult) (s : MState)
    (h : ¬ s.activeProxy = some b) :
    ((select b d f s).1).activeProxy = some b := by
  simp [select, h]

lemma initDecoder_fst_of_mInit (o : InitResult) (s : MState)
    (h : s.mInit = true) :
    (initDecoder o s).1 = s := by
  simp [initDecoder, h]

lemma initDecoder_fst_mInit (o : InitResult) (s : MState)
    (h : s.mInit = true) :
    ((initDecoder o s).1).mInit = true := by
  rw [initDecoder_fst_of_mInit o s h]; exact h

/-- Once `mInit` holds, a run of InitDecoder calls issues no request, does
not change the state, and resolves every call with the video track type. -/
lemma runInits_of_mInit (os : List InitResult) (s : MState)
    (h : s.mInit = true) :
    runInits os s = (s, [], os.map fun _ => InitResult.resolved .video) := by
  induction os with
  | nil => rfl
  | cons o os ih =>
    simp only [runInits]
    rw [initDecoder_fst_of_mInit o s h]
    have hinit : initDecoder o s = (s, [], .resolved .video) := by
      simp [initDecoder, h]
    rw [ih]
    simp [hinit]

end SharedDecoder

namespace SharedDecoder

/-! ### Additional preservation lemmas used by the invariant claims -/

lemma managerShutdown_mInit (s : MState) :
    ((managerShutdown s).1).mInit = s.mInit := by
  simp only [managerShutdown]
  split <;> rfl

lemma createVideoDecoder_fst_mInit (c : Bool) (n : Nat) (s : MState) :
    ((createVideoDecoder c n s).1).mInit = s.mInit := by
  cases c <;> cases hd : s.hasDecoder <;> simp [createVideoDecoder, hd]

lemma proxyShutdown_fst (p : Nat) (d f : Nsresult) (s : MState) :
    (proxyShutdown p d f s).1 = (setIdle (some p) d f s).1 := rfl

lemma proxyInit_fst_mInit (p : Nat) (d f : Nsresult) (o : InitResult)
    (s : MState) (h : s.mInit = true) :
    ((proxyInit p d f o s).1).mInit = true := by
  unfold proxyInit
  by_cases hp : s.activeProxy = some p
  · simp only [hp, if_pos]
    exact initDecoder_fst_mInit o s h
  · simp only [hp, if_neg, not_false_iff]
    refine initDecoder_fst_mInit o _ ?_
    rw [select_fst_mInit]; exact h

lemma proxyInput_fst_mInit (p : Nat) (d f i : Nsresult) (s : MState) :
    ((proxyInput p d f i s).1).mInit = s.mInit := by
  unfold proxyInput
  by_cases hp : s.activeProxy = some p <;> simp [hp, select_fst_mInit]

/-! ### Claim theorems -/

/-- Claim C1: when Select(B) runs while a different proxy A is active and
A's drain request succeeds, the observable sequence is exactly: a drain
request to the shared decoder, the internal consumption of the
drain-complete event (never delivered to A's sink), a flush request, and
only then the recording of B as the active proxy. -/
theorem c1_handoff_order (s : MState) (a b : Nat) (flushRv : Nsresult)
    (ha : s.activeProxy = some a) (hcb : s.activeCallback = some a)
    (hab : a ≠ b) :
    (select b .ok flushRv s).2 =
      [.req .drain, .internalDrainConsumed, .req .flush, .activate b] ∧
    ((select b .ok flushRv s).1).activeProxy = some b := by
  have hnb : ¬ s.activeProxy = some b := by
    rw [ha]
    intro hc
    exact hab (Option.some.inj hc)
  constructor
  · simp [select, hnb, ha, hab, setIdle, proxyDrain, proxyFlush, NS_SUCCEEDED,
      routerDrainComplete, managerDrainComplete, hcb]
  · simp [select, hnb]

/-- Witness for C1 at a concrete hand-off from proxy 0 to proxy 1. -/
theorem c1_handoff_order_witness :
    (select 1 .ok .ok ⟨true, true, true, some 0, some 0, true, false⟩).2 =
      [.req .drain, .internalDrainConsumed, .req .flush, .activate 1] :=
  (c1_handoff_order ⟨true, true, true, some 0, some 0, true, false⟩ 0 1 .ok
    rfl rfl (by decide)).1

/-- Claim C2, counterexample: after proxy 0 was selected and then shut
down (SetIdle hand-off completed), no proxy is active, yet an Output
event from the shared decoder is still delivered to proxy 0's sink rather
than dropped, because SetIdle clears mActiveProxy but not
mActiveCallback. -/
theorem c2_counterexample :
    ((proxyShutdown 0 .ok .ok
        (select 0 .ok .ok (createVideoDecoder true 0 initialState).1).1).1).activeProxy
      = none ∧
    routerEvent
        ((proxyShutdown 0 .ok .ok
          (select 0 .ok .ok (createVideoDecoder true 0 initialState).1).1).1)
        .output
      = [.sink 0 .output] := by
  decide

/-- Claim C2 as amended: Output, Error, InputExhausted and
ReleaseMediaResources events are forwarded verbatim to the sink recorded
by the most recent Select (mActiveCallback): while a proxy is active this
is the active proxy's sink; SetIdle leaves mActiveCallback in place, so
after a deactivation and before any new Select the event still goes to
the previously selected proxy's sink; the event is dropped only when no
proxy has ever been selected (mActiveCallback is null). -/
theorem c2_router_target (s : MState) (e : SinkEvent) :
    (∀ a, s.activeProxy = some a → s.activeCallback = some a →
      routerEvent s e = [.sink a e]) ∧
    (s.activeCallback = none → routerEvent s e = []) ∧
    (∀ p d f q, s.activeCallback = some q →
      routerEvent ((setIdle p d f s).1) e = [.sink q e]) := by
  refine ⟨?_, ?_, ?_⟩
  · intro a _ hcb
    simp [routerEvent, hcb]
  · intro h
    simp [routerEvent, h]
  · intro p d f q hq
    have hcb : ((setIdle p d f s).1).activeCallback = some q := by
      rw [setIdle_fst_activeCallback]; exact hq
    simp [routerEvent, hcb]

/-- Witness for the amended C2: forwarding to the active proxy's sink,
and forwarding to the old sink after a SetIdle hand-off. -/
theorem c2_router_target_witness :
    routerEvent ⟨true, true, true, some 0, some 0, false, false⟩ .output
      = [.sink 0 .output] ∧
    routerEvent
        ((setIdle (some 0) .ok .ok
          ⟨true, true, true, some 0, some 0, false, false⟩).1) .output
      = [.sink 0 .output] :=
  ⟨(c2_router_target ⟨true, true, true, some 0, some 0, false, false⟩ .output).1
      0 rfl rfl,
   (c2_router_target ⟨true, true, true, some 0, some 0, false, false⟩ .output).2.2
      (some 0) .ok .ok 0 rfl⟩

/-- Claim C3, counterexample: the decoder's init reports the audio track
type; the first InitDecoder call resolves with audio and sets
`initialized`, but the next call resolves with the hard-coded video track
type, not the already-known audio result. -/
theorem c3_counterexample :
    (initDecoder (.resolved .audio)
        ⟨true, true, true, none, none, false, false⟩).2.2
      = .resolved .audio ∧
    ((initDecoder (.resolved .audio)
        ⟨true, true, true, none, none, false, false⟩).1).mInit = true ∧
    (initDecoder (.resolved .audio)
        (initDecoder (.resolved .audio)
          ⟨true, true, true, none, none, false, false⟩).1).2.2
      = .resolved .video ∧
    InitResult.resolved .video ≠ InitResult.resolved .audio := by
  decide

/-- Claim C3 as amended: for a sequence of InitDecoder calls on a manager
holding a never-recreated resource, each made after the previous result
is known, whose first underlying init succeeds with track type t: exactly
one real init request reaches the resource, the first future resolves
with t, `initialized` ends true, and every later call resolves
immediately with the video track type (the already-known result whenever
the resource reported video) without touching the resource; a call whose
underlying init fails rejects with the failure reason and leaves
`initialized` false so a later call retries. -/
theorem c3_init_shared_once (s : MState) (t : TrackType)
    (rest : List InitResult) (hd : s.hasDecoder = true)
    (hi : s.mInit = false) :
    (runInits (.resolved t :: rest) s).2.1 = [.req .initReq] ∧
    (runInits (.resolved t :: rest) s).2.2 =
      .resolved t :: (rest.map fun _ => InitResult.resolved .video) ∧
    ((runInits (.resolved t :: rest) s).1).mInit = true ∧
    (∀ r, initDecoder (.rejected r) s = (s, [.req .initReq], .rejected r)) := by
  have hfirst : initDecoder (.resolved t) s =
      ({ s with mInit := true }, [.req .initReq], .resolved t) := by
    simp [initDecoder, hi, hd]
  have hrun := runInits_of_mInit rest { s with mInit := true } rfl
  refine ⟨?_, ?_, ?_, ?_⟩
  · simp [runInits, hfirst, hrun]
  · simp [runInits, hfirst, hrun]
  · simp [runInits, hfirst, hrun]
  · intro r
    simp [initDecoder, hi, hd]

/-- Witness for the amended C3: two calls, the first succeeding, issue a
single real init request. -/
theorem c3_init_shared_once_witness :
    (runInits [.resolved .video, .rejected .initError]
      ⟨true, true, true, some 0, some 0, false, false⟩).2.1 = [.req .initReq] :=
  (c3_init_shared_once ⟨true, true, true, some 0, some 0, false, false⟩
    .video [.rejected .initError] rfl rfl).1

/-- Claim C4: Recreate flushes then shuts down the old resource before
asking the factory for a new instance; on factory success it returns
true, resets `initialized`, and leaves the active-proxy pointer
unchanged; on factory failure it returns false. -/
theorem c4_recreate_behavior (s : MState) (createOk : Bool)
    (_hd : s.hasDecoder = true) (_hp : s.hasPDM = true) :
    (recreate createOk s).2.1 =
      [.req .flush, .req .shutdown, .factoryCreate] ∧
    (createOk = true →
      (recreate createOk s).2.2 = true ∧
      ((recreate createOk s).1).mInit = false ∧
      ((recreate createOk s).1).activeProxy = s.activeProxy) ∧
    (createOk = false → (recreate createOk s).2.2 = false) := by
  cases createOk <;> simp [recreate]

/-- Witness for C4 at a concrete state with a live resource. -/
theorem c4_recreate_behavior_witness :
    ((recreate true ⟨true, true, true, some 0, some 0, true, false⟩).1).mInit
      = false ∧
    (recreate false ⟨true, true, true, some 0, some 0, true, false⟩).2.2
      = false :=
  ⟨((c4_recreate_behavior ⟨true, true, true, some 0, some 0, true, false⟩
      true rfl rfl).2.1 rfl).2.1,
   (c4_recreate_behavior ⟨true, true, true, some 0, some 0, true, false⟩
      false rfl rfl).2.2 rfl⟩

/-- Claim C5: every manager or proxy operation other than Recreate
(Select, SetIdle, InitDecoder, DrainComplete, the router events, Shutdown,
CreateVideoDecoder, and all proxy operations) preserves
`initialized = true`; only Recreate resets it. -/
theorem c5_only_recreate_resets_mInit (op : MOp) (s : MState)
    (h : s.mInit = true) :
    (applyOp op s).mInit = true := by
  cases op with
  | selOp b d f => simp only [applyOp, select_fst_mInit]; exact h
  | setIdleOp p d f => simp only [applyOp, setIdle_fst_mInit]; exact h
  | initDecOp o => simp only [applyOp]; exact initDecoder_fst_mInit o s h
  | drainCompleteOp => simp only [applyOp, routerDrainComplete_mInit]; exact h
  | routerEventOp e => exact h
  | shutdownOp => simp only [applyOp, managerShutdown_mInit]; exact h
  | createVideoOp c n =>
    simp only [applyOp, createVideoDecoder_fst_mInit]; exact h
  | pDrainOp p r => simp only [applyOp, proxyDrain_fst]; exact h
  | pFlushOp p r => simp only [applyOp, proxyFlush_fst]; exact h
  | pShutdownOp p d f =>
    simp only [applyOp, proxyShutdown_fst, setIdle_fst_mInit]; exact h
  | pInitOp p d f o => simp only [applyOp]; exact proxyInit_fst_mInit p d f o s h
  | pInputOp p d f i =>
    simp only [applyOp, proxyInput_fst_mInit]; exact h

/-- Witness for C5: manager Shutdown leaves `initialized` true. -/
theorem c5_only_recreate_resets_mInit_witness :
    (applyOp .shutdownOp ⟨true, true, true, some 0, some 0, true, false⟩).mInit
      = true :=
  c5_only_recreate_resets_mInit .shutdownOp
    ⟨true, true, true, some 0, some 0, true, false⟩ rfl

/-- Claim C6: when the drain request issued inside SetIdle fails
immediately, no waiting (and no internal drain-complete consumption)
happens: the hand-off proceeds directly to the flush request and clears
the active-proxy reference. -/
theorem c6_setIdle_drain_failure (s : MState) (a : Nat) (flushRv : Nsresult)
    (ha : s.activeProxy = some a) :
    (setIdle (some a) .errFailure flushRv s).2 = [.req .drain, .req .flush] ∧
    ((setIdle (some a) .errFailure flushRv s).1).activeProxy = none := by
  constructor
  · simp [setIdle, ha, proxyDrain, proxyFlush, NS_SUCCEEDED]
  · exact setIdle_active_clears a .errFailure flushRv s ha

/-- Witness for C6 at a concrete active proxy. -/
theorem c6_setIdle_drain_failure_witness :
    (setIdle (some 0) .errFailure .ok
      ⟨true, true, true, some 0, some 0, true, false⟩).2
      = [.req .drain, .req .flush] :=
  (c6_setIdle_drain_failure ⟨true, true, true, some 0, some 0, true, false⟩
    0 .ok rfl).1

/-- Claim C7: Drain on a proxy that is not active reports success,
synchronously delivers drain-complete to that proxy's own sink, sends no
request to the shared decoder, and leaves the manager state unchanged. -/
theorem c7_inactive_drain (p : Nat) (rv : Nsresult) (s : MState)
    (h : ¬ s.activeProxy = some p) :
    proxyDrain p rv s = (s, [.sink p .drainComplete], .ok) := by
  simp [proxyDrain, h]

/-- Witness for C7: proxy 1 drains while proxy 0 is active. -/
theorem c7_inactive_drain_witness :
    proxyDrain 1 .errFailure ⟨true, true, true, some 0, some 0, true, false⟩
      = (⟨true, true, true, some 0, some 0, true, false⟩,
         [.sink 1 .drainComplete], .ok) :=
  c7_inactive_drain 1 .errFailure
    ⟨true, true, true, some 0, some 0, true, false⟩ (by decide)

/-- Claim C8: when the drain request inside SetIdle fails, the
`mWaitForInternalDrain` flag stays set after SetIdle returns; after a new
proxy b is selected, even a drain that b requests for itself sends a
drain request to the decoder, and the next drain-complete event the
decoder delivers is consumed internally (clearing the flag) instead of
being forwarded to any sink. -/
theorem c8_failed_drain_pending_consumption (s : MState) (a b : Nat)
    (f1 d2 f2 : Nsresult) (ha : s.activeProxy = some a) :
    ((setIdle (some a) .errFailure f1 s).1).waitForInternalDrain = true ∧
    ((select b d2 f2 (setIdle (some a) .errFailure f1 s).1).1).activeProxy
      = some b ∧
    (proxyDrain b .ok
      ((select b d2 f2 (setIdle (some a) .errFailure f1 s).1).1)).2.1
      = [.req .drain] ∧
    (routerDrainComplete
      ((select b d2 f2 (setIdle (some a) .errFailure f1 s).1).1)).2
      = [.internalDrainConsumed] ∧
    ((routerDrainComplete
      ((select b d2 f2 (setIdle (some a) .errFailure f1 s).1).1)).1).waitForInternalDrain
      = false := by
  have h1 : (setIdle (some a) .errFailure f1 s).1 =
      { s with activeProxy := none, waitForInternalDrain := true } := by
    simp [setIdle, ha, proxyDrain, proxyFlush, NS_SUCCEEDED]
  rw [h1]
  refine ⟨rfl, ?_, ?_, ?_, ?_⟩ <;>
    simp [select, setIdle, proxyDrain, routerDrainComplete,
      managerDrainComplete]

/-- Witness for C8 at a concrete failed hand-off from proxy 0 followed by
selecting proxy 1. -/
theorem c8_failed_drain_pending_consumption_witness :
    (routerDrainComplete
      ((select 1 .ok .ok
        (setIdle (some 0) .errFailure .ok
          ⟨true, true, true, some 0, some 0, true, false⟩).1).1)).2
      = [.internalDrainConsumed] :=
  (c8_failed_drain_pending_consumption
    ⟨true, true, true, some 0, some 0, true, false⟩ 0 1 .ok .ok .ok
    rfl).2.2.2.1

/-- Claim C9: when the manager holds no resource (after Shutdown or a
failed Recreate), InitDecoder does not fail: it returns an
immediately-resolved future carrying the video track type, touches
nothing, for either value of `initialized`. -/
theorem c9_init_without_decoder (o : InitResult) (s : MState)
    (h : s.hasDecoder = false) :
    initDecoder o s = (s, [], .resolved .video) := by
  simp [initDecoder, h]

/-- Witness for C9 in the state left by a failed Recreate (decoder gone,
`initialized` still true). -/
theorem c9_init_without_decoder_witness :
    initDecoder (.rejected .initError)
        ⟨false, true, true, some 0, some 0, true, false⟩
      = (⟨false, true, true, some 0, some 0, true, false⟩, [],
         .resolved .video) :=
  c9_init_without_decoder (.rejected .initError)
    ⟨false, true, true, some 0, some 0, true, false⟩ rfl

/-- Claim C10: proxy Shutdown always reports success; the first call on an
active proxy performs the SetIdle hand-off and deactivates it; any later
call (such as the destructor's) is a no-op: it leaves the manager state
unchanged, issues nothing, and still reports success. -/
theorem c10_proxy_shutdown_idempotent (p : Nat) (d1 f1 d2 f2 : Nsresult)
    (s : MState) :
    (proxyShutdown p d1 f1 s).2.2 = .ok ∧
    (s.activeProxy = some p →
      ((proxyShutdown p d1 f1 s).1).activeProxy = none) ∧
    proxyShutdown p d2 f2 ((proxyShutdown p d1 f1 s).1) =
      ((proxyShutdown p d1 f1 s).1, [], .ok) := by
  refine ⟨rfl, ?_, ?_⟩
  · intro hp
    rw [proxyShutdown_fst]
    exact setIdle_active_clears p d1 f1 s hp
  · set s1 := (proxyShutdown p d1 f1 s).1 with hs1
    have hne : ¬ s1.activeProxy = some p := by
      rw [hs1, proxyShutdown_fst]
      by_cases hp : s.activeProxy = some p
      · rw [setIdle_active_clears p d1 f1 s hp]
        simp
      · rw [setIdle_not_active p d1 f1 s hp]
        exact hp
    show proxyShutdown p d2 f2 s1 = (s1, [], .ok)
    simp [proxyShutdown, setIdle_not_active p d2 f2 s1 hne]

/-- Witness for C10: shutting down proxy 0 twice from an active state. -/
theorem c10_proxy_shutdown_idempotent_witness :
    proxyShutdown 0 .ok .ok
        ((proxyShutdown 0 .ok .ok
          ⟨true, true, true, some 0, some 0, true, false⟩).1) =
      ((proxyShutdown 0 .ok .ok
        ⟨true, true, true, some 0, some 0, true, false⟩).1, [], .ok) :=
  (c10_proxy_shutdown_idempotent 0 .ok .ok .ok .ok
    ⟨true, true, true, some 0, some 0, true, false⟩).2.2

end SharedDecoder
